import Mathlib

/-!
Shallow embedding of `src/packages/ocular/src/services/queue.ts` (QueueService,
a kafkajs-backed producer/consumer service).

Modelling conventions:
* Each method is a pure Lean function returning the list of observable events
  (broker calls, log lines, handler invocations) it performs, together with the
  outcome the caller observes (`Except String Unit`: `.error e` means the
  returned promise rejects with message `e`).
* JSON.stringify / JSON.parse are external pure primitives; they are passed in
  as parameters of type `T -> Except String String` resp.
  `String -> Except String Doc` (`.error` models a thrown exception).
* Broker operations that can fail are driven by an environment record whose
  fields are `Option String` (`some e` = the operation fails with message `e`,
  `none` = it succeeds).
* An `await`ed failing operation aborts the surrounding control flow with an
  exception; a promise that is NOT awaited (as in `subscribeBatch`, lines
  141-142 of the source) cannot abort the caller: its rejection is recorded as
  a `backgroundRejection` event and control flow continues.
-/

namespace Ocular

/-! ## Producer side (`send`, `sendBatch`, queue.ts lines 48-92) -/

/-- Observable events of the producer path. `publish` carries the message
values handed to `producer.send`; `publishBatch` carries the
`topicMessages` list (topic, message values) handed to `producer.sendBatch`. -/
inductive ProdEvent where
  | connect
  | publish (topic : String) (values : List String)
  | publishBatch (topicMessages : List (String × List String))
  | disconnect
  | logError (msg : String)
deriving DecidableEq, Repr

/-- Which producer-side broker operations fail in a given run
(`some e` = fails with message `e`). -/
structure ProducerEnv where
  connectErr : Option String
  sendErr : Option String
  disconnectErr : Option String
deriving DecidableEq, Repr

/-- `data.map ((doc) => ({ value: JSON.stringify(doc) }))` (queue.ts line 75):
serializes each element in order; a thrown exception aborts the map. -/
def stringifyAll {T : Type} (stringify : T → Except String String) :
    List T → Except String (List String)
  | [] => .ok []
  | d :: ds =>
    match stringify d with
    | .error e => .error e
    | .ok s =>
      match stringifyAll stringify ds with
      | .error e => .error e
      | .ok ss => .ok (s :: ss)

/-- Log line of the catch block of `send` (queue.ts line 61). -/
def sendErrMsg (e : String) : String :=
  "send: Error sending message to Kafka: " ++ e

/-- Log line of the catch block of `sendBatch` (queue.ts line 88; note the
missing space after the colon, as in the source). -/
def sendBatchErrMsg (e : String) : String :=
  "sendBatch:Error sending batch message to Kafka: " ++ e

/-- Body of the `try` block of `send` (queue.ts lines 53-59):
`await producer.connect()`, then `JSON.stringify(data)` (evaluated while
building the send record), then `await producer.send(...)`, then
`await producer.disconnect()`. A failing step aborts the rest. -/
def sendBody {T : Type} (stringify : T → Except String String)
    (env : ProducerEnv) (topicName : String) (data : T) :
    List ProdEvent × Except String Unit :=
  match env.connectErr with
  | some e => ([.connect], .error e)
  | none =>
    match stringify data with
    | .error e => ([.connect], .error e)
    | .ok s =>
      match env.sendErr with
      | some e => ([.connect, .publish topicName [s]], .error e)
      | none =>
        match env.disconnectErr with
        | some e => ([.connect, .publish topicName [s], .disconnect], .error e)
        | none => ([.connect, .publish topicName [s], .disconnect], .ok ())

/-- `send` (queue.ts lines 48-65): the whole body is wrapped in
`try/catch`; the catch logs and swallows the error, so the caller always
observes normal completion. -/
def send {T : Type} (stringify : T → Except String String)
    (env : ProducerEnv) (topicName : String) (data : T) :
    List ProdEvent × Except String Unit :=
  match sendBody stringify env topicName data with
  | (evs, .error e) => (evs ++ [.logError (sendErrMsg e)], .ok ())
  | (evs, .ok _) => (evs, .ok ())

/-- Body of the `try` block of `sendBatch` (queue.ts lines 73-86):
`await connect()`, serialize every element, build one `TopicMessages`
group and a batch holding only it, `await producer.sendBatch(batch)`,
`await disconnect()`. -/
def sendBatchBody {T : Type} (stringify : T → Except String String)
    (env : ProducerEnv) (topicName : String) (data : List T) :
    List ProdEvent × Except String Unit :=
  match env.connectErr with
  | some e => ([.connect], .error e)
  | none =>
    match stringifyAll stringify data with
    | .error e => ([.connect], .error e)
    | .ok msgs =>
      match env.sendErr with
      | some e => ([.connect, .publishBatch [(topicName, msgs)]], .error e)
      | none =>
        match env.disconnectErr with
        | some e =>
          ([.connect, .publishBatch [(topicName, msgs)], .disconnect], .error e)
        | none =>
          ([.connect, .publishBatch [(topicName, msgs)], .disconnect], .ok ())

/-- `sendBatch` (queue.ts lines 67-92): try/catch wrapper, errors logged and
swallowed. -/
def sendBatch {T : Type} (stringify : T → Except String String)
    (env : ProducerEnv) (topicName : String) (data : List T) :
    List ProdEvent × Except String Unit :=
  match sendBatchBody stringify env topicName data with
  | (evs, .error e) => (evs ++ [.logError (sendBatchErrMsg e)], .ok ())
  | (evs, .ok _) => (evs, .ok ())

/-! ## Message-delivery callbacks (`eachMessage`, `eachBatch`,
queue.ts lines 110-115 and 145-173) -/

/-- Observable events inside a delivery callback. `handlerCall` records the
exact arguments the caller-supplied handler is invoked with. -/
inductive Event (Doc : Type) where
  | logActivity (msg : String)
  | handlerCall (docs : List Doc) (topic : String)
  | logProgress (msg : String)
  | heartbeat
  | logSuccess (msg : String)
  | logError (msg : String)
deriving DecidableEq, Repr

/-- The activity log line opening a batch (queue.ts line 149). -/
def activityMsg (n : Nat) (topicName : String) : String :=
  "eachBatch: Batch Received " ++ toString n ++ " messages in topic "
    ++ topicName ++ "\n"

/-- The per-item progress line (queue.ts line 159; the double space after
quote Out of quote is in the source). -/
def progressMsg (i n : Nat) (topicName : String) : String :=
  "eachBatch: Indexed " ++ toString i ++ " messages Out of  Received "
    ++ toString n ++ " messages in topic " ++ topicName ++ "\n"

/-- The success line closing a batch (queue.ts line 166). -/
def successMsg (n : Nat) (topicName : String) : String :=
  "eachBatch: Finished Batch Processing " ++ toString n
    ++ " messages in topic " ++ topicName ++ "\n"

/-- Log line of the catch block inside `eachBatch` (queue.ts line 170). -/
def eachBatchErrMsg (e : String) : String :=
  "eachBatch: Error processing message: " ++ e

/-- `batch.messages.map((message) => JSON.parse(message.value.toString()))`
(queue.ts lines 151-153): parses payloads in order; a thrown exception
aborts the map before any handler runs. -/
def parseAll {Doc : Type} (parse : String → Except String Doc) :
    List String → Except String (List Doc)
  | [] => .ok []
  | m :: ms =>
    match parse m with
    | .error e => .error e
    | .ok d =>
      match parseAll parse ms with
      | .error e => .error e
      | .ok ds => .ok (d :: ds)

/-- The `for` loop of `eachBatch` (queue.ts lines 155-162): for each index
`i`, `await consumer([docs[i]], topic)`, then a progress log, then
`await heartbeat()`. A handler rejection aborts the loop (the `await`
rethrows); the second component is the escaping exception, if any.
`total` is `batch.messages.length`, used only in the progress line. -/
def batchLoop {Doc : Type} (handler : List Doc → String → Except String Unit)
    (topicName : String) (total : Nat) :
    List Doc → Nat → List (Event Doc) × Option String
  | [], _ => ([], none)
  | d :: ds, i =>
    match handler [d] topicName with
    | .error e => ([.handlerCall [d] topicName], some e)
    | .ok _ =>
      let rest := batchLoop handler topicName total ds (i + 1)
      (.handlerCall [d] topicName
        :: .logProgress (progressMsg i total topicName)
        :: .heartbeat :: rest.1, rest.2)

/-- The `eachBatch` callback (queue.ts lines 145-173). Its whole body is in
a `try/catch` whose catch only logs, so no exception ever escapes the
callback: the second component (the escaping exception) is `none` in
every branch. `topic` at line 156 refers to the enclosing function binding
`const topic = topicName.toString()` (line 177), equal to `topicName`. -/
def eachBatch {Doc : Type} (parse : String → Except String Doc)
    (handler : List Doc → String → Except String Unit)
    (topicName : String) (messages : List String) :
    List (Event Doc) × Option String :=
  let n := messages.length
  let act : Event Doc := .logActivity (activityMsg n topicName)
  match parseAll parse messages with
  | .error e => ([act, .logError (eachBatchErrMsg e)], none)
  | .ok docs =>
    match batchLoop handler topicName n docs 0 with
    | (evs, some e) => (act :: (evs ++ [.logError (eachBatchErrMsg e)]), none)
    | (evs, none) => (act :: (evs ++ [.logSuccess (successMsg n topicName)]), none)

/-- `consumer.run({ eachBatchAutoResolve: true, ... })` (queue.ts line 144). -/
def eachBatchAutoResolve : Bool := true

/-- kafkajs marks a batch resolved when `eachBatchAutoResolve` is set and the
callback returned without throwing (`escaped = none`). -/
def batchResolved (escaped : Option String) : Bool :=
  eachBatchAutoResolve && escaped.isNone

/-- The `eachMessage` callback of `subscribe` (queue.ts lines 110-115):
`JSON.parse` the payload (a thrown exception escapes the callback — there is
no catch around it), then invoke `consumer([doc], topic)` WITHOUT awaiting
it, attaching a `.catch` that logs a rejection. -/
def eachMessage {Doc : Type} (parse : String → Except String Doc)
    (handler : List Doc → String → Except String Unit)
    (topicName : String) (msgValue : String) :
    List (Event Doc) × Option String :=
  match parse msgValue with
  | .error e => ([], some e)
  | .ok doc =>
    match handler [doc] topicName with
    | .error e =>
      ([.handlerCall [doc] topicName,
        .logError ("Error processing message: " ++ e)], none)
    | .ok _ => ([.handlerCall [doc] topicName], none)

/-! ## Subscription setup (`subscribe`, `subscribeBatch`,
queue.ts lines 94-189) -/

/-- `ConsumerContext` from the types package: the subscription is scoped to
`context.groupId`. -/
structure ConsumerContext where
  groupId : String
deriving DecidableEq, Repr

/-- Observable events of subscription setup. `createConsumer` records the
config given to `kafkaClient.consumer`; `subscribeTopic` the arguments of
`kafkaConsumer.subscribe`; `storeConsumer` the registry insertion
(`storeConsumers`, inherited from `AbstractQueueService`);
`backgroundRejection` an un-awaited promise rejecting after the fact. -/
inductive SetupEvent where
  | consoleLog (msg : String)
  | createConsumer (groupId : String) (sessionTimeout : Option Nat)
  | connect
  | subscribeTopic (topic : String) (fromBeginning : Bool)
  | runLoop
  | storeConsumer (topicName : String) (consumerId : String)
  | logError (msg : String)
  | backgroundRejection (msg : String)
deriving DecidableEq, Repr

/-- Which consumer-side broker operations fail in a given run.
`createErr` is a synchronous throw from `kafkaClient.consumer`;
`connectErr` and `subscribeErr` are asynchronous rejections of
`consumer.connect()` / `consumer.subscribe(...)`. -/
structure ConsumerEnv where
  createErr : Option String
  connectErr : Option String
  subscribeErr : Option String
deriving DecidableEq, Repr

/-- The `consumer` argument of `subscribe`/`subscribeBatch`: either an actual
function or some non-function value (`typeof consumer !== "function"`). -/
inductive HandlerArg (Doc : Type) where
  | fn (h : List Doc → String → Except String Unit)
  | notFn

/-- What a call to `subscribe`/`subscribeBatch` produces: its setup events,
whether a registry entry was stored, and what the caller observes
(`.error e` = the returned promise rejects with `e`). -/
structure SetupResult where
  events : List SetupEvent
  registered : Bool
  outcome : Except String Unit
deriving Repr

/-- Log line of the catch block of `subscribeBatch` (queue.ts line 186). -/
def subscribeBatchErrMsg (e : String) : String :=
  "subscribeBatch: Error subscribing to topic: " ++ e

/-- `subscribe` (queue.ts lines 94-126). No try/catch anywhere: the
non-function check throws to the caller, and every awaited broker failure
(`consumer` creation, `connect`, `subscribe`) rejects the returned promise;
`storeConsumers` runs only if everything before it succeeded.
`randId` stands for the `ulid()` value (line 118). -/
def subscribe {Doc : Type} (env : ConsumerEnv) (topicName : String)
    (consumer : HandlerArg Doc) (context : ConsumerContext)
    (randId : String) : SetupResult :=
  match consumer with
  | .notFn => ⟨[], false, .error "Subscriber must be a function"⟩
  | .fn _ =>
    let evs0 : List SetupEvent :=
      [.consoleLog ("Subscribing to topic " ++ topicName),
       .createConsumer context.groupId none]
    match env.createErr with
    | some e => ⟨evs0, false, .error e⟩
    | none =>
      match env.connectErr with
      | some e => ⟨evs0 ++ [.connect], false, .error e⟩
      | none =>
        match env.subscribeErr with
        | some e =>
          ⟨evs0 ++ [.connect, .subscribeTopic topicName false], false, .error e⟩
        | none =>
          ⟨evs0 ++ [.connect, .subscribeTopic topicName false, .runLoop,
            .storeConsumer topicName (topicName ++ "-" ++ randId)],
           true, .ok ()⟩

/-- `subscribeBatch` (queue.ts lines 128-189). The whole body sits in a
`try/catch` that logs and swallows, so the caller always observes normal
completion. Only synchronous throws reach the catch: the non-function check
and `kafkaClient.consumer` creation. `connect()` and `subscribe(...)`
(lines 141-142) are NOT awaited, so their rejections bypass the catch as
background rejections and do not stop `storeConsumers` from running. -/
def subscribeBatch {Doc : Type} (env : ConsumerEnv) (topicName : String)
    (consumer : HandlerArg Doc) (context : ConsumerContext)
    (randId : String) : SetupResult :=
  match consumer with
  | .notFn =>
    ⟨[.logError (subscribeBatchErrMsg "Subscriber must be a function")],
     false, .ok ()⟩
  | .fn _ =>
    match env.createErr with
    | some e =>
      ⟨[.createConsumer context.groupId (some 60000),
        .logError (subscribeBatchErrMsg e)], false, .ok ()⟩
    | none =>
      let connectEvs : List SetupEvent :=
        match env.connectErr with
        | some e => [.connect, .backgroundRejection e]
        | none => [.connect]
      let subEvs : List SetupEvent :=
        match env.subscribeErr with
        | some e => [.subscribeTopic topicName false, .backgroundRejection e]
        | none => [.subscribeTopic topicName false]
      ⟨.createConsumer context.groupId (some 60000)
        :: (connectEvs ++ subEvs
          ++ [.runLoop, .storeConsumer topicName (topicName ++ "-" ++ randId)]),
       true, .ok ()⟩

/-! ## Event predicates and spec-side descriptions -/

/-- Keeps exactly the handler invocations and heartbeats of a trace. -/
def isCore {Doc : Type} : Event Doc → Bool
  | .handlerCall _ _ => true
  | .heartbeat => true
  | _ => false

/-- Recognizes a handler invocation event. -/
def isHandlerCallEv {Doc : Type} : Event Doc → Bool
  | .handlerCall _ _ => true
  | _ => false

/-- Recognizes a heartbeat event. -/
def isHeartbeatEv {Doc : Type} : Event Doc → Bool
  | .heartbeat => true
  | _ => false

/-- Recognizes an error-log event. -/
def isLogErrorEv {Doc : Type} : Event Doc → Bool
  | .logError _ => true
  | _ => false

/-- Spec-side description of a fully successful batch: one singleton handler
invocation per document, in order, each immediately followed by one
heartbeat. -/
def callsAndBeats {Doc : Type} (topicName : String) :
    List Doc → List (Event Doc)
  | [] => []
  | d :: ds =>
    .handlerCall [d] topicName :: .heartbeat :: callsAndBeats topicName ds

/-- Spec-side description of a well-configured setup event: any topic
subscription targets the requested topic with `fromBeginning = false`, and
any consumer session is scoped to the given group id. -/
def goodSetupEvent (topicName groupId : String) (ev : SetupEvent) : Prop :=
  (∀ t b, ev = .subscribeTopic t b → t = topicName ∧ b = false)
    ∧ (∀ g st, ev = .createConsumer g st → g = groupId)

/-! ## Concrete fixtures used by the witnesses -/

/-- A parser that accepts every payload. -/
def exParse0 (_ : String) : Except String Nat := .ok 0

/-- A parser that rejects every payload (models a malformed JSON body). -/
def exParseFail (_ : String) : Except String Nat :=
  .error "Unexpected token"

/-- A handler that always succeeds. -/
def exHandlerOk : List Nat → String → Except String Unit := fun _ _ => .ok ()

/-- A handler that always throws. -/
def exHandlerBoom : List Nat → String → Except String Unit :=
  fun _ _ => .error "boom"

/-- A serializer for naturals that always succeeds. -/
def exStringify (n : Nat) : Except String String := .ok (toString n)

/-! ## Helper lemmas -/

/-- Parsing a whole batch preserves its length. -/
theorem parseAll_length {Doc : Type} (parse : String → Except String Doc) :
    ∀ (ms : List String) (ds : List Doc),
      parseAll parse ms = .ok ds → ds.length = ms.length := by
  intro ms
  induction ms with
  | nil => intro ds h; simp [parseAll] at h; simp [← h]
  | cons m rest ih =>
    intro ds h
    cases hm : parse m with
    | error e => simp [parseAll, hm] at h
    | ok d =>
      cases hr : parseAll parse rest with
      | error e => simp [parseAll, hm, hr] at h
      | ok ds0 =>
        simp [parseAll, hm, hr] at h
        subst h
        simp [ih ds0 hr]

/-- When every document is handled successfully, the batch loop runs to the
end: its core events are one singleton call plus one heartbeat per document
in order, it logs no error, and no exception escapes. -/
theorem batchLoop_ok_spec {Doc : Type}
    (handler : List Doc → String → Except String Unit)
    (topicName : String) (total : Nat) :
    ∀ (docs : List Doc) (i : Nat),
      (∀ d ∈ docs, handler [d] topicName = .ok ()) →
      (batchLoop handler topicName total docs i).1.filter isCore
          = callsAndBeats topicName docs
      ∧ (batchLoop handler topicName total docs i).1.countP isHeartbeatEv
          = docs.length
      ∧ (batchLoop handler topicName total docs i).1.countP isHandlerCallEv
          = docs.length
      ∧ (batchLoop handler topicName total docs i).1.countP isLogErrorEv = 0
      ∧ (batchLoop handler topicName total docs i).2 = none := by
  intro docs
  induction docs with
  | nil => intro i h; simp [batchLoop, callsAndBeats]
  | cons d ds ih =>
    intro i h
    have hd := h d (by simp)
    have hds : ∀ x ∈ ds, handler [x] topicName = .ok () :=
      fun x hx => h x (by simp [hx])
    obtain ⟨h1, h2, h3, h4, h5⟩ := ih (i + 1) hds
    simp [batchLoop, hd, callsAndBeats, List.filter_cons, List.countP_cons,
      isCore, isHeartbeatEv, isHandlerCallEv, isLogErrorEv, h1, h2, h3, h4, h5]

/-- When the handler succeeds on a prefix and then throws on document `d`,
the batch loop invokes the handler exactly on the prefix and on `d` (all in
singleton form), never on anything after `d`, and the exception escapes the
loop. -/
theorem batchLoop_fail_spec {Doc : Type}
    (handler : List Doc → String → Except String Unit)
    (topicName : String) (total : Nat) (d : Doc) (e : String)
    (hd : handler [d] topicName = .error e) :
    ∀ (pre post : List Doc) (i : Nat),
      (∀ x ∈ pre, handler [x] topicName = .ok ()) →
      (batchLoop handler topicName total (pre ++ d :: post) i).1.filter
          isHandlerCallEv
          = (pre ++ [d]).map (fun x => Event.handlerCall [x] topicName)
      ∧ (batchLoop handler topicName total (pre ++ d :: post) i).2 = some e := by
  intro pre
  induction pre with
  | nil => intro post i h; simp [batchLoop, hd, isHandlerCallEv]
  | cons x xs ih =>
    intro post i h
    have hx := h x (by simp)
    obtain ⟨h1, h2⟩ := ih post (i + 1) (fun y hy => h y (by simp [hy]))
    simp [batchLoop, hx, List.filter_cons, isHandlerCallEv, h1, h2]

/-- Every handler invocation recorded by the batch loop carries a document
array of length exactly 1. -/
theorem batchLoop_calls_singleton {Doc : Type}
    (handler : List Doc → String → Except String Unit)
    (topicName : String) (total : Nat) :
    ∀ (docs : List Doc) (i : Nat) (ev : Event Doc),
      ev ∈ (batchLoop handler topicName total docs i).1 →
      ∀ (ds : List Doc) (t : String),
        ev = .handlerCall ds t → ds.length = 1 := by
  intro docs
  induction docs with
  | nil => intro i ev hev; simp [batchLoop] at hev
  | cons d rest ih =>
    intro i ev hev ds t hevq
    cases hh : handler [d] topicName with
    | error e =>
      simp [batchLoop, hh] at hev
      subst hev
      cases hevq
      simp
    | ok u =>
      simp [batchLoop, hh] at hev
      rcases hev with h1 | h1 | h1 | h1
      · subst h1; cases hevq; simp
      · subst h1; cases hevq
      · subst h1; cases hevq
      · exact ih (i + 1) ev h1 ds t hevq

/-- Serializing with a total serializer maps it over the list. -/
theorem stringifyAll_map {T : Type} (f : T → String) :
    ∀ data : List T,
      stringifyAll (fun d => (Except.ok (f d) : Except String String)) data
        = Except.ok (data.map f) := by
  intro data
  induction data with
  | nil => simp [stringifyAll]
  | cons d ds ih => simp [stringifyAll, ih]

/-! ## Claim theorems -/

/-- C1: In the batch consumer loop, for every delivered batch the handler is
invoked once per message in arrival order, each invocation awaited to
completion before the next begins, with exactly one heartbeat sent after
each handler resolves and before the next message is processed; a batch of
n messages produces exactly n heartbeats and n handler invocations, no
error is logged, and no exception escapes the callback (in particular an
empty batch yields zero invocations, zero heartbeats and no error). -/
theorem eachBatch_sequential_heartbeats {Doc : Type}
    (parse : String → Except String Doc)
    (handler : List Doc → String → Except String Unit)
    (topicName : String) (messages : List String) (docs : List Doc)
    (hp : parseAll parse messages = .ok docs)
    (hh : ∀ d ∈ docs, handler [d] topicName = .ok ()) :
    (eachBatch parse handler topicName messages).1.filter isCore
        = callsAndBeats topicName docs
    ∧ (eachBatch parse handler topicName messages).1.countP isHeartbeatEv
        = messages.length
    ∧ (eachBatch parse handler topicName messages).1.countP isHandlerCallEv
        = messages.length
    ∧ (eachBatch parse handler topicName messages).1.countP isLogErrorEv = 0
    ∧ (eachBatch parse handler topicName messages).2 = none := by
  obtain ⟨h1, h2, h3, h4, h5⟩ :=
    batchLoop_ok_spec handler topicName messages.length docs 0 hh
  have hlen := parseAll_length parse messages docs hp
  cases hb : batchLoop handler topicName messages.length docs 0 with
  | mk evs esc =>
    rw [hb] at h1 h2 h3 h4 h5
    simp only at h5
    subst h5
    simp [eachBatch, hp, hb, List.filter_cons, List.filter_append,
      List.countP_cons, List.countP_append, isCore, isHeartbeatEv,
      isHandlerCallEv, isLogErrorEv, h1, h2, h3, h4, hlen]

/-- Witness for C1 at a concrete two-message batch. -/
theorem eachBatch_sequential_heartbeats_witness :
    (parseAll exParse0 ["a", "b"] = Except.ok [0, 0])
    ∧ (∀ d ∈ ([0, 0] : List Nat), exHandlerOk [d] "t" = Except.ok ())
    ∧ (eachBatch exParse0 exHandlerOk "t" ["a", "b"]).1.countP isHeartbeatEv
        = 2 :=
  ⟨rfl, fun _ _ => rfl,
    (eachBatch_sequential_heartbeats exParse0 exHandlerOk "t" ["a", "b"]
      [0, 0] rfl (fun _ _ => rfl)).2.1⟩

/-- C2: In the batch consumer loop, if the handler throws on the document
after a successfully handled prefix, the remaining documents are never
passed to the handler, the error is logged with the eachBatch context, no
exception escapes the batch callback, and the batch is still resolved
(auto-resolve). -/
theorem eachBatch_handler_throw_contained {Doc : Type}
    (parse : String → Except String Doc)
    (handler : List Doc → String → Except String Unit)
    (topicName : String) (messages : List String)
    (pre post : List Doc) (d : Doc) (e : String)
    (hp : parseAll parse messages = .ok (pre ++ d :: post))
    (hpre : ∀ x ∈ pre, handler [x] topicName = .ok ())
    (hd : handler [d] topicName = .error e) :
    (eachBatch parse handler topicName messages).1.filter isHandlerCallEv
        = (pre ++ [d]).map (fun x => Event.handlerCall [x] topicName)
    ∧ Event.logError (eachBatchErrMsg e)
        ∈ (eachBatch parse handler topicName messages).1
    ∧ (eachBatch parse handler topicName messages).2 = none
    ∧ batchResolved (eachBatch parse handler topicName messages).2 = true := by
  obtain ⟨h1, h2⟩ :=
    batchLoop_fail_spec handler topicName messages.length d e hd pre post 0 hpre
  cases hb : batchLoop handler topicName messages.length (pre ++ d :: post) 0 with
  | mk evs esc =>
    rw [hb] at h1 h2
    simp only at h2
    subst h2
    simp [eachBatch, hp, hb, List.filter_cons, List.filter_append,
      List.mem_cons, List.mem_append, isHandlerCallEv, h1,
      batchResolved, eachBatchAutoResolve]

/-- Witness for C2: handler throws on the first document of a two-message
batch; no exception escapes the callback. -/
theorem eachBatch_handler_throw_contained_witness :
    (exHandlerBoom [0] "t" = Except.error "boom")
    ∧ (eachBatch exParse0 exHandlerBoom "t" ["a", "b"]).2 = none :=
  ⟨rfl,
    (eachBatch_handler_throw_contained exParse0 exHandlerBoom "t" ["a", "b"]
      [] [0] 0 "boom" rfl (by intro x hx; simp at hx) rfl).2.2.1⟩

/-- C9: In the batch consumer loop, all payloads are deserialized before any
handler invocation: if deserialization of the batch fails, the handler is
invoked zero times, the error is logged with the eachBatch context, no
exception escapes, and the batch is still auto-resolved. -/
theorem eachBatch_parse_failure_no_handler {Doc : Type}
    (parse : String → Except String Doc)
    (handler : List Doc → String → Except String Unit)
    (topicName : String) (messages : List String) (e : String)
    (hp : parseAll parse messages = .error e) :
    (eachBatch parse handler topicName messages).1
        = [Event.logActivity (activityMsg messages.length topicName),
           Event.logError (eachBatchErrMsg e)]
    ∧ (eachBatch parse handler topicName messages).1.countP isHandlerCallEv = 0
    ∧ (eachBatch parse handler topicName messages).2 = none
    ∧ batchResolved (eachBatch parse handler topicName messages).2 = true := by
  simp [eachBatch, hp, List.countP_cons, isHandlerCallEv, batchResolved,
    eachBatchAutoResolve]

/-- Witness for C9 at a batch whose only payload fails to parse. -/
theorem eachBatch_parse_failure_no_handler_witness :
    (parseAll exParseFail ["a"] = Except.error "Unexpected token")
    ∧ (eachBatch exParseFail exHandlerOk "t" ["a"]).1.countP isHandlerCallEv
        = 0 :=
  ⟨rfl,
    (eachBatch_parse_failure_no_handler exParseFail exHandlerOk "t" ["a"]
      "Unexpected token" rfl).2.1⟩

/-- C10: In both the single-message callback and the batch callback, every
invocation of the caller-supplied handler receives a document array of
length exactly 1 together with the topic name. -/
theorem handler_receives_singleton {Doc : Type}
    (parse : String → Except String Doc)
    (handler : List Doc → String → Except String Unit)
    (topicName msgValue : String) (messages : List String) :
    (∀ ev ∈ (eachBatch parse handler topicName messages).1,
        ∀ (ds : List Doc) (t : String),
          ev = Event.handlerCall ds t → ds.length = 1)
    ∧ (∀ ev ∈ (eachMessage parse handler topicName msgValue).1,
        ∀ (ds : List Doc) (t : String),
          ev = Event.handlerCall ds t → ds.length = 1) := by
  constructor
  · intro ev hev ds t hevq
    cases hp : parseAll parse messages with
    | error e =>
      simp [eachBatch, hp] at hev
      rcases hev with h | h <;> (subst h; cases hevq)
    | ok docs =>
      cases hb : batchLoop handler topicName messages.length docs 0 with
      | mk evs esc =>
        cases esc with
        | some e =>
          simp [eachBatch, hp, hb] at hev
          rcases hev with h | h | h
          · subst h; cases hevq
          · exact batchLoop_calls_singleton handler topicName messages.length
              docs 0 ev (by rw [hb]; exact h) ds t hevq
          · subst h; cases hevq
        | none =>
          simp [eachBatch, hp, hb] at hev
          rcases hev with h | h | h
          · subst h; cases hevq
          · exact batchLoop_calls_singleton handler topicName messages.length
              docs 0 ev (by rw [hb]; exact h) ds t hevq
          · subst h; cases hevq
  · intro ev hev ds t hevq
    cases hpm : parse msgValue with
    | error e => simp [eachMessage, hpm] at hev
    | ok doc =>
      cases hh : handler [doc] topicName with
      | error e2 =>
        simp [eachMessage, hpm, hh] at hev
        rcases hev with h | h
        · subst h; cases hevq; simp
        · subst h; cases hevq
      | ok u =>
        simp [eachMessage, hpm, hh] at hev
        subst hev; cases hevq; simp

/-- Witness for C10 at a concrete one-message batch. -/
theorem handler_receives_singleton_witness :
    (Event.handlerCall [0] "t" ∈ (eachBatch exParse0 exHandlerOk "t" ["a"]).1)
    ∧ (([0] : List Nat).length = 1) :=
  ⟨by decide,
    (handler_receives_singleton exParse0 exHandlerOk "t" "x" ["a"]).1
      (Event.handlerCall [0] "t") (by decide) [0] "t" rfl⟩

/-- C5: send never throws or rejects to its caller: whatever fails inside
(serialization, connection, broker rejection), the call completes normally,
and when the body fails the only observable trace of the failure is an
error-log event carrying the send context. -/
theorem send_swallows_errors {T : Type} (stringify : T → Except String String)
    (env : ProducerEnv) (topicName : String) (data : T) :
    (send stringify env topicName data).2 = Except.ok ()
    ∧ (∀ e, (sendBody stringify env topicName data).2 = Except.error e →
        (send stringify env topicName data).1
          = (sendBody stringify env topicName data).1
            ++ [ProdEvent.logError (sendErrMsg e)]) := by
  cases hb : sendBody stringify env topicName data with
  | mk evs r =>
    cases r with
    | error e0 =>
      refine ⟨by simp [send, hb], ?_⟩
      intro e he
      simp only [Except.error.injEq] at he
      subst he
      simp [send, hb]
    | ok u =>
      refine ⟨by simp [send, hb], ?_⟩
      intro e he
      simp at he

/-- Witness for C5: a broker rejection on the publish step is swallowed and
logged. -/
theorem send_swallows_errors_witness :
    ((sendBody exStringify ⟨none, some "broker down", none⟩ "t" 5).2
        = Except.error "broker down")
    ∧ (send exStringify ⟨none, some "broker down", none⟩ "t" 5).1
        = (sendBody exStringify ⟨none, some "broker down", none⟩ "t" 5).1
          ++ [ProdEvent.logError (sendErrMsg "broker down")] :=
  ⟨rfl,
    (send_swallows_errors exStringify ⟨none, some "broker down", none⟩
      "t" 5).2 "broker down" rfl⟩

/-- C6 counterexample: when the broker rejects the publish, `send` skips the
disconnect (the catch block does not disconnect), so the producer is NOT
disconnected by the time the call returns — refuting the claim that every
call ends with a disconnected producer. -/
theorem send_failure_no_disconnect_cex :
    ProdEvent.disconnect
      ∉ (send exStringify ⟨none, some "broker down", none⟩ "t" 5).1 := by
  decide

/-- C6 (amended): when serialization and all broker operations succeed, send
connects the producer, publishes exactly one message carrying the
serialized document to the topic, then disconnects, so the producer is
disconnected by the time the call returns; but if the publish step fails,
the disconnect is skipped and the producer is left connected. -/
theorem send_disconnect_on_success {T : Type}
    (stringify : T → Except String String) (topicName : String) (data : T)
    (s e : String) (hs : stringify data = Except.ok s) :
    (send stringify ⟨none, none, none⟩ topicName data).1
        = [ProdEvent.connect, ProdEvent.publish topicName [s],
           ProdEvent.disconnect]
    ∧ (send stringify ⟨none, none, none⟩ topicName data).2 = Except.ok ()
    ∧ ProdEvent.disconnect
        ∉ (send stringify ⟨none, some e, none⟩ topicName data).1 := by
  refine ⟨?_, ?_, ?_⟩ <;> simp [send, sendBody, hs]

/-- Witness for C6 at a concrete document. -/
theorem send_disconnect_on_success_witness :
    (exStringify 5 = Except.ok "5")
    ∧ (send exStringify ⟨none, none, none⟩ "t" 5).1
        = [ProdEvent.connect, ProdEvent.publish "t" ["5"],
           ProdEvent.disconnect] :=
  ⟨rfl, (send_disconnect_on_success exStringify "t" 5 "5" "x" rfl).1⟩

/-- C7: sendBatch serializes each element independently and hands the broker
a single batch made of one topic-messages group targeting the topic, whose
messages are the serializations of the elements in their original order,
and the call completes without error; instantiated at the empty list this
gives a batch with zero messages and a normal completion. -/
theorem sendBatch_single_ordered_batch {T : Type} (f : T → String)
    (env : ProducerEnv) (topicName : String) (data : List T)
    (hc : env.connectErr = none) :
    ProdEvent.publishBatch [(topicName, data.map f)]
        ∈ (sendBatch (fun d => (Except.ok (f d) : Except String String))
            env topicName data).1
    ∧ (sendBatch (fun d => (Except.ok (f d) : Except String String))
        env topicName data).2 = Except.ok () := by
  rcases hse : env.sendErr with _ | e1 <;>
    rcases hde : env.disconnectErr with _ | e2 <;>
      simp [sendBatch, sendBatchBody, hc, hse, hde, stringifyAll_map]

/-- Witness for C7: a two-element batch and the empty batch, both at a
connectable broker. -/
theorem sendBatch_single_ordered_batch_witness :
    ((⟨none, none, none⟩ : ProducerEnv).connectErr = none)
    ∧ ProdEvent.publishBatch [("t", ["1", "2"])]
        ∈ (sendBatch (fun d => (Except.ok (toString d) : Except String String))
            ⟨none, none, none⟩ "t" [1, 2]).1
    ∧ ProdEvent.publishBatch [("t", ([] : List String))]
        ∈ (sendBatch (fun d => (Except.ok (toString d) : Except String String))
            ⟨none, none, none⟩ "t" ([] : List Nat)).1 :=
  ⟨rfl,
    (sendBatch_single_ordered_batch toString ⟨none, none, none⟩ "t"
      [1, 2] rfl).1,
    (sendBatch_single_ordered_batch toString ⟨none, none, none⟩ "t"
      ([] : List Nat) rfl).1⟩

/-- C3 counterexample: `subscribeBatch` called with a non-function handler
does NOT throw to the caller: its own try/catch swallows the thrown error
and the call completes normally (the failure is only logged) — refuting the
claim that both entry points throw InvalidArgument to the caller. -/
theorem subscribeBatch_nonFunction_swallowed :
    (subscribeBatch ⟨none, none, none⟩ "topic"
        (HandlerArg.notFn : HandlerArg Nat) ⟨"group"⟩ "01H").outcome
      = Except.ok ()
    ∧ (subscribeBatch ⟨none, none, none⟩ "topic"
        (HandlerArg.notFn : HandlerArg Nat) ⟨"group"⟩ "01H").events
      = [SetupEvent.logError
          (subscribeBatchErrMsg "Subscriber must be a function")] :=
  ⟨rfl, rfl⟩

/-- C3 (amended): with a non-function handler, `subscribe` fails immediately
with the InvalidArgument error before any network call and adds no registry
entry; `subscribeBatch` likewise performs no network call and adds no
registry entry, but its try/catch catches the thrown error and logs it, so
the caller observes normal completion instead of an error. -/
theorem nonFunction_handler_no_registration {Doc : Type} (env : ConsumerEnv)
    (topicName : String) (ctx : ConsumerContext) (randId : String) :
    subscribe env topicName (HandlerArg.notFn : HandlerArg Doc) ctx randId
        = ⟨[], false, Except.error "Subscriber must be a function"⟩
    ∧ subscribeBatch env topicName (HandlerArg.notFn : HandlerArg Doc) ctx randId
        = ⟨[SetupEvent.logError
            (subscribeBatchErrMsg "Subscriber must be a function")],
           false, Except.ok ()⟩ :=
  ⟨rfl, rfl⟩

/-- C4 counterexample: a broker connect failure during `subscribe` is not
caught anywhere in `subscribe`: the error propagates to the caller instead
of the function returning normally — refuting the claim. -/
theorem subscribe_connect_failure_rejects :
    (subscribe ⟨none, some "broker unreachable", none⟩ "topic"
        (HandlerArg.fn exHandlerOk) ⟨"group"⟩ "01H").outcome
      = Except.error "broker unreachable" :=
  rfl

/-- C4 (amended): a broker connect or subscribe failure during `subscribe`
propagates to the caller uncaught and unlogged, and no consumer handle is
registered; in `subscribeBatch` the connect and subscribe calls are not
awaited, so their asynchronous failures bypass its try/catch — the call
returns normally but the handle IS still registered, with the failure
surfacing only as a background rejection; only a synchronous failure while
creating the consumer is caught, logged, and skips registration. -/
theorem broker_failure_behavior {Doc : Type}
    (h : List Doc → String → Except String Unit)
    (topicName : String) (ctx : ConsumerContext) (randId : String)
    (e : String) :
    subscribe ⟨none, some e, none⟩ topicName (HandlerArg.fn h)
        ctx randId
      = ⟨[SetupEvent.consoleLog ("Subscribing to topic " ++ topicName),
          SetupEvent.createConsumer ctx.groupId none, SetupEvent.connect],
         false, Except.error e⟩
    ∧ subscribe ⟨none, none, some e⟩ topicName (HandlerArg.fn h)
        ctx randId
      = ⟨[SetupEvent.consoleLog ("Subscribing to topic " ++ topicName),
          SetupEvent.createConsumer ctx.groupId none, SetupEvent.connect,
          SetupEvent.subscribeTopic topicName false],
         false, Except.error e⟩
    ∧ subscribeBatch ⟨none, some e, none⟩ topicName
        (HandlerArg.fn h) ctx randId
      = ⟨[SetupEvent.createConsumer ctx.groupId (some 60000),
          SetupEvent.connect, SetupEvent.backgroundRejection e,
          SetupEvent.subscribeTopic topicName false, SetupEvent.runLoop,
          SetupEvent.storeConsumer topicName (topicName ++ "-" ++ randId)],
         true, Except.ok ()⟩
    ∧ subscribeBatch ⟨some e, none, none⟩ topicName
        (HandlerArg.fn h) ctx randId
      = ⟨[SetupEvent.createConsumer ctx.groupId (some 60000),
          SetupEvent.logError (subscribeBatchErrMsg e)],
         false, Except.ok ()⟩ :=
  ⟨rfl, rfl, rfl, rfl⟩

/-- C8: every consumer session opened by `subscribe` or `subscribeBatch` is
created with the group id taken from the context, and every topic
subscription it issues targets the requested topic with
`fromBeginning = false` — for all argument values, so neither setting is
configurable through these entry points. -/
theorem consumer_session_from_tail {Doc : Type} (env : ConsumerEnv)
    (topicName : String) (carg : HandlerArg Doc) (ctx : ConsumerContext)
    (randId : String) :
    (∀ ev ∈ (subscribe env topicName carg ctx randId).events,
        goodSetupEvent topicName ctx.groupId ev)
    ∧ (∀ ev ∈ (subscribeBatch env topicName carg ctx randId).events,
        goodSetupEvent topicName ctx.groupId ev) := by
  constructor
  · intro ev hev
    cases carg with
    | notFn => simp [subscribe] at hev
    | fn h =>
      rcases hc : env.createErr with _ | e1 <;>
        rcases hcn : env.connectErr with _ | e2 <;>
          rcases hs : env.subscribeErr with _ | e3 <;>
            simp [subscribe, hc, hcn, hs] at hev <;>
              rcases hev with rfl | rfl | rfl | rfl | rfl | rfl <;>
                simp [goodSetupEvent]
  · intro ev hev
    cases carg with
    | notFn =>
      simp [subscribeBatch] at hev
      subst hev
      simp [goodSetupEvent]
    | fn h =>
      rcases hc : env.createErr with _ | e1 <;>
        rcases hcn : env.connectErr with _ | e2 <;>
          rcases hs : env.subscribeErr with _ | e3 <;>
            simp [subscribeBatch, hc, hcn, hs] at hev <;>
              rcases hev with rfl | rfl | rfl | rfl | rfl | rfl | rfl | rfl <;>
                simp [goodSetupEvent]

/-- Witness for C8 at a concrete subscription. -/
theorem consumer_session_from_tail_witness :
    (SetupEvent.subscribeTopic "t" false
        ∈ (subscribe ⟨none, none, none⟩ "t"
            (HandlerArg.fn exHandlerOk) ⟨"g"⟩ "r").events)
    ∧ ("t" = "t" ∧ false = false) :=
  ⟨by decide,
    ((consumer_session_from_tail ⟨none, none, none⟩ "t"
        (HandlerArg.fn exHandlerOk) ⟨"g"⟩ "r").1
      (SetupEvent.subscribeTopic "t" false) (by decide)).1 "t" false rfl⟩

end Ocular
